import Mathlib

/-!
Verification of the sprouts-coupons offer-clipping client.

The development shallowly embeds `src/sprouts_coupons/client.py` (class
`SproutsClient`) and the per-offer loop body of `clip_all_coupons` from
`src/sprouts_coupons/main.py`.  Decoded JSON values are modelled by the
inductive type `JSON`; Python dictionary access, subscripting, truthiness,
string equality and iteration are modelled by small helper functions that
raise the same exception classes Python would (`PyErr`).  Fallible Python
code is embedded as `Except PyErr`-valued functions; a `try/except
Exception` block in the source becomes a `match` that maps `.error` to the
handler result.
-/

namespace SproutsCoupons

/-- A decoded JSON value, as produced by `response.json()`.  Numbers are
modelled as integers (no claim concerns floats). -/
inductive JSON where
  | null
  | bool (b : Bool)
  | num (n : Int)
  | str (s : String)
  | arr (elems : List JSON)
  | obj (fields : List (String × JSON))
deriving Repr

/-- Python exception classes that the embedded code can raise. -/
inductive PyErr where
  /-- `requests.HTTPError`, raised by `response.raise_for_status()`. -/
  | httpError
  /-- The `RuntimeError("GraphQL error: ...")` raised by `_graphql_get`;
  carries the value of `errors[0].get("message", "Unknown error")`. -/
  | appError (msg : JSON)
  /-- `AttributeError`, e.g. calling `.get` or `.strip` on a non-dict/non-str. -/
  | attributeError
  /-- `TypeError`, e.g. subscripting or iterating a non-subscriptable value. -/
  | typeError
  /-- `KeyError`, e.g. `d[0]` on a dict without key `0`. -/
  | keyError
  /-- `IndexError`, e.g. `xs[0]` on an empty list. -/
  | indexError
deriving Repr

/-- First value bound to `key` in an association list: Python `dict`
lookup (real dicts have unique keys, so first = only). -/
def dictGet : List (String × JSON) → String → Option JSON
  | [], _ => none
  | (k, v) :: rest, key => if k = key then some v else dictGet rest key

/-- Python truthiness (`bool(v)`) of a JSON value. -/
def pyTruthy : JSON → Bool
  | .null => false
  | .bool b => b
  | .num n => n != 0
  | .str s => !s.isEmpty
  | .arr xs => !xs.isEmpty
  | .obj fs => !fs.isEmpty

/-- Python `v.get(key, default)`: only mappings have a `.get` method, every
other value raises `AttributeError`.  A key explicitly bound to `null`
returns `null`, not the default, exactly as in Python. -/
def jget (v : JSON) (key : String) (default : JSON) : Except PyErr JSON :=
  match v with
  | .obj fs => .ok ((dictGet fs key).getD default)
  | _ => .error .attributeError

/-- Python `v[0]`: first element of a list (IndexError when empty), first
character of a string, KeyError on a dict (no key `0`), TypeError
otherwise. -/
def pyIndexZero : JSON → Except PyErr JSON
  | .arr [] => .error .indexError
  | .arr (x :: _) => .ok x
  | .str s =>
    match s.data with
    | [] => .error .indexError
    | c :: _ => .ok (.str (String.mk [c]))
  | .obj _ => .error .keyError
  | _ => .error .typeError

/-- Whether a character is stripped by Python `str.strip()` (the ASCII
whitespace characters; Python also strips some further Unicode space
characters, which do not occur in this development). -/
def pyIsSpace (c : Char) : Bool :=
  c = ' ' ∨ c = '\t' ∨ c = '\n' ∨ c = '\r' ∨ c = '\x0b' ∨ c = '\x0c'

/-- Drop the leading run of whitespace characters. -/
def dropLeadingSpace : List Char → List Char
  | [] => []
  | c :: cs => if pyIsSpace c then dropLeadingSpace cs else c :: cs

/-- Python `s.strip()` on a string: remove leading and trailing
whitespace (trailing = leading of the reversal). -/
def pyStripString (s : String) : String :=
  String.mk (dropLeadingSpace (dropLeadingSpace s.data).reverse).reverse

/-- Python `v.strip()`: only strings have `.strip`. -/
def pyStrip : JSON → Except PyErr String
  | .str s => .ok (pyStripString s)
  | _ => .error .attributeError

/-- Python `v == lit` for a string literal `lit`: true exactly for an equal
string; values of any other type compare unequal (never an error). -/
def pyEqStr (v : JSON) (lit : String) : Bool :=
  match v with
  | .str s => s = lit
  | _ => false

/-- Python `for x in v`: lists yield their elements, strings their
characters, dicts their keys; other values raise `TypeError`. -/
def pyIter : JSON → Except PyErr (List JSON)
  | .arr xs => .ok xs
  | .str s => .ok (s.data.map fun c => .str (String.mk [c]))
  | .obj fs => .ok (fs.map fun kv => JSON.str kv.1)
  | _ => .error .typeError

/-- The `Offer` dataclass from `models.py`.  Python does not enforce the
field annotations, so every field that is assigned a raw `.get` result is
modelled as `JSON`; `description` is always a `str` (it comes from
`.strip()`) and `is_clipped` is always a `bool` (it comes from `==`). -/
structure Offer where
  id : JSON
  offer_id : JSON
  coupon_id : JSON
  offer_request_key : JSON
  name : JSON
  description : String
  expires_on : JSON
  is_clipped : Bool
  image_url : JSON
deriving Repr

/-- Body of `SproutsClient._parse_single_offer`, before its
`except Exception` handler: the statements of the `try` block in source
order.  Any Python exception surfaces as `.error`. -/
def parse_single_offer_body (raw : JSON) : Except PyErr Offer :=
  jget raw "viewSection" (.obj []) >>= fun view =>
  jget view "detailsFormattedAttributesString" (.obj []) >>= fun details =>
  jget details "sections" (.arr []) >>= fun sections =>
  (if pyTruthy sections then
    pyIndexZero sections >>= fun s0 =>
    jget s0 "text" (.str "") >>= fun t =>
    pyStrip t
  else pure "") >>= fun description =>
  jget view "endsOnString" (.str "") >>= fun expires_on =>
  jget view "offerImage" (.obj []) >>= fun image =>
  (if pyTruthy image then jget image "url" JSON.null else pure JSON.null) >>= fun image_url =>
  jget raw "id" (.str "") >>= fun id =>
  jget raw "offerId" (.str "") >>= fun offer_id =>
  jget raw "couponId" (.str "") >>= fun coupon_id =>
  jget raw "offerRequestKey" (.str "") >>= fun offer_request_key =>
  jget view "nameString" (.str "") >>= fun name =>
  jget view "clippedVariant" JSON.null >>= fun clippedVariant =>
  pure {
    id := id
    offer_id := offer_id
    coupon_id := coupon_id
    offer_request_key := offer_request_key
    name := name
    description := description
    expires_on := expires_on
    is_clipped := pyEqStr clippedVariant "true"
    image_url := image_url }

/-- `SproutsClient._parse_single_offer`: the `except Exception` handler
turns every raised exception into `None`. -/
def parse_single_offer (raw : JSON) : Option Offer :=
  match parse_single_offer_body raw with
  | .ok o => some o
  | .error _ => none

/-- The `for raw in raw_offers` loop of `_parse_offers`: an `Offer`
instance is always truthy, so `if offer:` appends exactly the non-`None`
parse results, preserving order. -/
def parse_offers_loop : List JSON → List Offer
  | [] => []
  | raw :: rest =>
    match parse_single_offer raw with
    | some offer => offer :: parse_offers_loop rest
    | none => parse_offers_loop rest

/-- `SproutsClient._parse_offers`.  The source wraps the whole body in a
`try` whose handler logs and re-`raise`s, so exceptions propagate
unchanged; the embedding therefore returns the raw `Except`. -/
def parse_offers (data : JSON) : Except PyErr (List Offer) := do
  let d ← jget data "data" (.obj [])
  let u ← jget d "userOffersV2" (.obj [])
  let rawOffers ← jget u "offers" (.arr [])
  let raws ← pyIter rawOffers
  pure (parse_offers_loop raws)

/-- An HTTP response as seen by `_graphql_get`: final status code plus the
decoded JSON object body (`response.json()`, annotated `dict[str, Any]` in
the source). -/
structure HttpResponse where
  status : Nat
  body : List (String × JSON)
deriving Repr

/-- `response.raise_for_status()` from `requests`: raises `HTTPError`
exactly for client-error (4xx) and server-error (5xx) status codes. -/
def raise_for_status (status : Nat) : Except PyErr Unit :=
  if 400 ≤ status ∧ status < 600 then .error .httpError else .ok ()

/-- `SproutsClient._graphql_get`, from the point where the HTTP response is
in hand (URL construction, headers and cookies do not affect the returned
value).  Mirrors the source: `raise_for_status`, then `if "errors" in
data:` raise `RuntimeError` with `errors[0].get("message", "Unknown
error")`, else return `data`. -/
def graphql_get (r : HttpResponse) : Except PyErr JSON := do
  let _ ← raise_for_status r.status
  match dictGet r.body "errors" with
  | some errors => do
    let first ← pyIndexZero errors
    let msg ← jget first "message" (.str "Unknown error")
    .error (.appError msg)
  | none => pure (.obj r.body)

/-- Outcomes of the two network calls `clip_coupon` can make, abstracting
the outside world: each field is the result of the corresponding
`_graphql_get` invocation (`.error` covers transport failures and GraphQL
errors alike; `.ok` carries the decoded body). -/
structure NetEnv where
  availResp : Except PyErr JSON
  clipResp : Except PyErr JSON

/-- `SproutsClient._get_available_offer`: run the `GetAvailableOffer`
query, extract `data.get("data", {}).get("getAvailableOffer")`, return
`None` when that is falsy; the surrounding `try/except Exception` turns
every exception into `None`. -/
def get_available_offer (env : NetEnv) : Option JSON :=
  match (env.availResp.bind fun data =>
         (jget data "data" (.obj [])).bind fun d =>
         jget d "getAvailableOffer" JSON.null) with
  | .error _ => none
  | .ok offer_data => if pyTruthy offer_data then some offer_data else none

/-- Network calls issued by `clip_coupon`, in order.  The recorded
`itemId` is the resolved `item_id` value (the source sends `str(item_id)`
in the variables dict; the claims inspect the resolved id, not its
wire rendering). -/
inductive IssuedCall where
  | getAvailableOffer (legacyOfferId : JSON)
  | clipCoupon (itemId : JSON)
deriving Repr

/-- Lines 193-206 of `clip_coupon`: `items = offer_data.get("items", [])`;
empty/falsy `items` falls back to the default item id `"000000000001"`;
otherwise `item_id = items[0].get("legacyId")` and a falsy `item_id` makes
the operation return `False` (modelled as `.ok none`).  This block is NOT
inside any `try`, so its exceptions escape `clip_coupon`. -/
def resolve_item_id (offer_data : JSON) : Except PyErr (Option JSON) :=
  jget offer_data "items" (.arr []) >>= fun items =>
  if pyTruthy items then
    pyIndexZero items >>= fun first =>
    jget first "legacyId" JSON.null >>= fun item_id =>
    if pyTruthy item_id then pure (some item_id) else pure none
  else
    pure (some (.str "000000000001"))

/-- The `try` block around the `ClipCoupon` mutation: run the call and
extract `data.get("data", {}).get("clipCouponV2")`. -/
def clip_mutation_result (env : NetEnv) : Except PyErr JSON :=
  env.clipResp.bind fun data =>
  (jget data "data" (.obj [])).bind fun d =>
  jget d "clipCouponV2" JSON.null

/-- `SproutsClient.clip_coupon`.  Returns the Python result (`.ok b` for a
normal `return`, `.error e` for an escaping exception) together with the
list of network calls issued.  The final `try/except Exception` catches
only exceptions of the `ClipCoupon` call itself and returns `False`;
success is `bool(clip_result)` for the extracted `clipCouponV2` value.
`clip_coupon` never assigns to `offer`, so no updated offer is returned. -/
def clip_coupon (offer : Offer) (env : NetEnv) : Except PyErr Bool × List IssuedCall :=
  if offer.is_clipped then (.ok true, [])
  else
    match get_available_offer env with
    | none => (.ok false, [.getAvailableOffer offer.offer_id])
    | some offer_data =>
      match resolve_item_id offer_data with
      | .error e => (.error e, [.getAvailableOffer offer.offer_id])
      | .ok none => (.ok false, [.getAvailableOffer offer.offer_id])
      | .ok (some item_id) =>
        let calls := [IssuedCall.getAvailableOffer offer.offer_id,
                      IssuedCall.clipCoupon item_id]
        match clip_mutation_result env with
        | .error _ => (.ok false, calls)
        | .ok clip_result => (.ok (pyTruthy clip_result), calls)

/-- The per-offer body of `clip_all_coupons` (`main.py` lines 53-58):
skip offers already clipped; otherwise call `clip_coupon` and, exactly
when it returns `True`, set `offer.is_clipped = True` and record the offer
as newly clipped (the returned `Bool`).  Exceptions escaping `clip_coupon`
propagate out of the loop. -/
def clip_offer_step (offer : Offer) (env : NetEnv) : Except PyErr (Offer × Bool) :=
  if offer.is_clipped then .ok (offer, false)
  else
    match (clip_coupon offer env).1 with
    | .error e => .error e
    | .ok true => .ok ({ offer with is_clipped := true }, true)
    | .ok false => .ok (offer, false)

/-- Whether an `Except` computation returned normally (no Python exception
escaped). -/
def exceptIsOk : Except PyErr Bool → Bool
  | .ok _ => true
  | .error _ => false

/-- The chain `view = raw.get("viewSection", {}); details = view.get(...);
sections = details.get("sections", [])` in isolation: the value bound to
`sections` by `_parse_single_offer`, or the exception that chain raises. -/
def sections_chain (raw : JSON) : Except PyErr JSON :=
  (jget raw "viewSection" (.obj [])).bind fun view =>
  (jget view "detailsFormattedAttributesString" (.obj [])).bind fun details =>
  jget details "sections" (.arr [])

/-- The `raw_offers = data.get("data", {}).get("userOffersV2",
{}).get("offers", [])` chain of `_parse_offers` together with entering the
`for` loop: the list of raw records iterated, or the exception the
extraction raises. -/
def extract_raw_offers (data : JSON) : Except PyErr (List JSON) := do
  let d ← jget data "data" (.obj [])
  let u ← jget d "userOffersV2" (.obj [])
  let rawOffers ← jget u "offers" (.arr [])
  pyIter rawOffers

section Helpers

@[simp] theorem except_bind_ok {α β : Type} (a : α) (f : α → Except PyErr β) :
    (Except.ok a : Except PyErr α) >>= f = f a := rfl

@[simp] theorem except_bind_err {α β : Type} (e : PyErr) (f : α → Except PyErr β) :
    (Except.error e : Except PyErr α) >>= f = Except.error e := rfl

/-- Destructor for a successful bind in the `Except PyErr` monad. -/
theorem bindOk {α β : Type} {x : Except PyErr α} {f : α → Except PyErr β} {b : β}
    (h : x >>= f = .ok b) : ∃ a, x = .ok a ∧ f a = .ok b := by
  cases x with
  | error e => exact absurd h (by simp)
  | ok a => exact ⟨a, rfl, by simpa using h⟩

/-- A successful `jget` forces the receiver to be a mapping and returns the
looked-up value (or the default). -/
theorem jget_ok {v : JSON} {key : String} {d r : JSON}
    (h : jget v key d = .ok r) :
    ∃ fs, v = JSON.obj fs ∧ r = (dictGet fs key).getD d := by
  cases v <;> simp [jget] at h
  case obj fs => exact ⟨fs, rfl, h.symm⟩

/-- The `for` loop of `_parse_offers` keeps exactly the records whose
single-offer parse is non-`None`, in order. -/
theorem parse_offers_loop_eq_filterMap (raws : List JSON) :
    parse_offers_loop raws = raws.filterMap parse_single_offer := by
  induction raws with
  | nil => rfl
  | cons raw rest ih =>
    unfold parse_offers_loop
    cases h : parse_single_offer raw <;> simp [List.filterMap_cons, h, ih]

/-- Everything a successful single-offer parse determines: the raw record
and its view section are mappings, each identifier field is the
corresponding top-level lookup (defaulted to `""`), display fields come
from the view section, `is_clipped` is the exact string compare, and the
description is determined by the first element of the `sections` value
alone. -/
theorem parse_single_offer_ok_destruct {raw : JSON} {o : Offer}
    (h : parse_single_offer raw = some o) :
    ∃ fs vfs s,
      raw = JSON.obj fs ∧
      (dictGet fs "viewSection").getD (JSON.obj []) = JSON.obj vfs ∧
      sections_chain raw = .ok s ∧
      o.id = (dictGet fs "id").getD (.str "") ∧
      o.offer_id = (dictGet fs "offerId").getD (.str "") ∧
      o.coupon_id = (dictGet fs "couponId").getD (.str "") ∧
      o.offer_request_key = (dictGet fs "offerRequestKey").getD (.str "") ∧
      o.name = (dictGet vfs "nameString").getD (.str "") ∧
      o.expires_on = (dictGet vfs "endsOnString").getD (.str "") ∧
      o.is_clipped = pyEqStr ((dictGet vfs "clippedVariant").getD JSON.null) "true" ∧
      (pyTruthy s = false → o.description = "") ∧
      (∀ x rest, s = JSON.arr (x :: rest) →
        ∃ ffs t, x = JSON.obj ffs ∧
          (dictGet ffs "text").getD (JSON.str "") = JSON.str t ∧
          o.description = pyStripString t) := by
  unfold parse_single_offer at h
  cases hb : parse_single_offer_body raw with
  | error e => rw [hb] at h; cases h
  | ok o2 =>
    rw [hb] at h
    injection h with h
    subst h
    unfold parse_single_offer_body at hb
    obtain ⟨view, hview, hb⟩ := bindOk hb
    obtain ⟨details, hdet, hb⟩ := bindOk hb
    obtain ⟨sections, hsec, hb⟩ := bindOk hb
    obtain ⟨description, hdesc, hb⟩ := bindOk hb
    obtain ⟨expires, hexp, hb⟩ := bindOk hb
    obtain ⟨image, himg, hb⟩ := bindOk hb
    obtain ⟨imageUrl, hiurl, hb⟩ := bindOk hb
    obtain ⟨idv, hid, hb⟩ := bindOk hb
    obtain ⟨offerIdv, hoid, hb⟩ := bindOk hb
    obtain ⟨couponIdv, hcid, hb⟩ := bindOk hb
    obtain ⟨reqKeyv, hrk, hb⟩ := bindOk hb
    obtain ⟨namev, hname, hb⟩ := bindOk hb
    obtain ⟨clippedv, hclip, hb⟩ := bindOk hb
    have ho : o2 = {
        id := idv, offer_id := offerIdv, coupon_id := couponIdv,
        offer_request_key := reqKeyv, name := namev,
        description := description, expires_on := expires,
        is_clipped := pyEqStr clippedv "true", image_url := imageUrl } := by
      simpa [pure, Except.pure] using hb.symm
    obtain ⟨fs, hraw, hviewv⟩ := jget_ok hview
    obtain ⟨vfs, hviewobj, hdetv⟩ := jget_ok hdet
    have hvfs : (dictGet fs "viewSection").getD (JSON.obj []) = JSON.obj vfs := by
      rw [← hviewv, hviewobj]
    have hchain : sections_chain raw = .ok sections := by
      unfold sections_chain
      rw [hview]
      simp only [Except.bind]
      rw [hdet]
      simp only [Except.bind]
      exact hsec
    obtain ⟨dfs, hdetobj, hsecv⟩ := jget_ok hsec
    obtain ⟨fs2, hraw2, hidv⟩ := jget_ok hid
    obtain ⟨fs3, hraw3, hoidv⟩ := jget_ok hoid
    obtain ⟨fs4, hraw4, hcidv⟩ := jget_ok hcid
    obtain ⟨fs5, hraw5, hrkv⟩ := jget_ok hrk
    obtain ⟨vfs2, hview2, hnamev⟩ := jget_ok hname
    obtain ⟨vfs3, hview3, hexpv⟩ := jget_ok hexp
    obtain ⟨vfs4, hview4, hclipv⟩ := jget_ok hclip
    have hfs2 : fs2 = fs := by rw [hraw] at hraw2; injection hraw2 with h2; exact h2.symm
    have hfs3 : fs3 = fs := by rw [hraw] at hraw3; injection hraw3 with h2; exact h2.symm
    have hfs4 : fs4 = fs := by rw [hraw] at hraw4; injection hraw4 with h2; exact h2.symm
    have hfs5 : fs5 = fs := by rw [hraw] at hraw5; injection hraw5 with h2; exact h2.symm
    have hvfs2 : vfs2 = vfs := by rw [hviewobj] at hview2; injection hview2 with h2; exact h2.symm
    have hvfs3 : vfs3 = vfs := by rw [hviewobj] at hview3; injection hview3 with h2; exact h2.symm
    have hvfs4 : vfs4 = vfs := by rw [hviewobj] at hview4; injection hview4 with h2; exact h2.symm
    refine ⟨fs, vfs, sections, hraw, hvfs, hchain, ?_, ?_, ?_, ?_, ?_, ?_, ?_, ?_, ?_⟩
    · rw [ho]; rw [hidv, hfs2]
    · rw [ho]; rw [hoidv, hfs3]
    · rw [ho]; rw [hcidv, hfs4]
    · rw [ho]; rw [hrkv, hfs5]
    · rw [ho]; rw [hnamev, hvfs2]
    · rw [ho]; rw [hexpv, hvfs3]
    · rw [ho]; rw [hclipv, hvfs4]
    · intro hfalse
      rw [hfalse] at hdesc
      simp only [Bool.false_eq_true, if_false, pure, Except.pure, Except.ok.injEq] at hdesc
      rw [ho]
      exact hdesc.symm
    · intro x rest hxr
      rw [hxr] at hdesc
      simp [pyTruthy, pyIndexZero] at hdesc
      obtain ⟨tv, htv, hdesc⟩ := bindOk hdesc
      obtain ⟨ffs, hxobj, htvv⟩ := jget_ok htv
      cases tv with
      | str t =>
        refine ⟨ffs, t, hxobj, htvv.symm, ?_⟩
        have hdt : pyStripString t = description := by simpa [pyStrip] using hdesc
        rw [ho]
        exact hdt.symm
      | null => simp [pyStrip] at hdesc
      | bool b => simp [pyStrip] at hdesc
      | num n => simp [pyStrip] at hdesc
      | arr xs => simp [pyStrip] at hdesc
      | obj gfs => simp [pyStrip] at hdesc

end Helpers

/-- The value bound to the `clippedVariant` key of the view section of a
raw offer record, when both the record and its view section are
mappings. -/
def clipped_variant_of (raw : JSON) : Option JSON :=
  match raw with
  | .obj fs =>
    match (dictGet fs "viewSection").getD (.obj []) with
    | .obj vfs => dictGet vfs "clippedVariant"
    | _ => none
  | _ => none

/-- C3: for every raw offer record that parses to an Offer, `is_clipped`
is true exactly when the view section's `clippedVariant` field equals the
exact string `"true"`; any other value — the boolean `true`, the string
`"false"`, or an absent field — yields `false`. -/
theorem is_clipped_exact_string_compare (raw : JSON) (o : Offer)
    (h : parse_single_offer raw = some o) :
    o.is_clipped = true ↔ clipped_variant_of raw = some (JSON.str "true") := by
  obtain ⟨fs, vfs, s, hraw, hvfs, -, -, -, -, -, -, -, hclip, -, -⟩ :=
    parse_single_offer_ok_destruct h
  subst hraw
  rw [hclip]
  simp only [clipped_variant_of, hvfs]
  cases hcv : dictGet vfs "clippedVariant" with
  | none => simp [pyEqStr]
  | some v => cases v <;> simp [pyEqStr]

def rawClipW : JSON := .obj [("viewSection", .obj [("clippedVariant", .str "true")])]

def offerClipW : Offer :=
  ⟨.str "", .str "", .str "", .str "", .str "", "", .str "", true, .null⟩

/-- Witness for C3 at a concrete record whose `clippedVariant` is the
string `"true"`. -/
theorem is_clipped_exact_string_compare_witness :
    parse_single_offer rawClipW = some offerClipW ∧ offerClipW.is_clipped = true :=
  ⟨rfl, (is_clipped_exact_string_compare rawClipW offerClipW rfl).mpr rfl⟩

/-- C4: a raw offer record that is a mapping with no `viewSection` key
parses, without raising, to an Offer whose identifiers come from the
top-level keys (defaulted to the empty string), with empty name,
description and expiry, `is_clipped = false` and a null image URL. -/
theorem parse_missing_view_section_defaults (fs : List (String × JSON))
    (h : dictGet fs "viewSection" = none) :
    parse_single_offer (JSON.obj fs) = some {
      id := (dictGet fs "id").getD (.str ""),
      offer_id := (dictGet fs "offerId").getD (.str ""),
      coupon_id := (dictGet fs "couponId").getD (.str ""),
      offer_request_key := (dictGet fs "offerRequestKey").getD (.str ""),
      name := .str "",
      description := "",
      expires_on := .str "",
      is_clipped := false,
      image_url := JSON.null } := by
  unfold parse_single_offer parse_single_offer_body
  simp [jget, h, dictGet, pyTruthy, pyEqStr, pure, Except.pure]

/-- Witness for C4 at a concrete record carrying only top-level
identifiers. -/
theorem parse_missing_view_section_defaults_witness :
    dictGet [("id", JSON.str "X"), ("offerId", JSON.str "Y")] "viewSection" = none ∧
    parse_single_offer (JSON.obj [("id", JSON.str "X"), ("offerId", JSON.str "Y")]) =
      some ⟨.str "X", .str "Y", .str "", .str "", .str "", "", .str "", false, .null⟩ :=
  ⟨rfl, parse_missing_view_section_defaults
    [("id", JSON.str "X"), ("offerId", JSON.str "Y")] rfl⟩

/-- C5: whenever a raw record parses to an Offer, the description is the
first element of the sections list's `text` field trimmed of surrounding
whitespace when that list is non-empty, and the empty string when the
sections value is empty or absent (falsy); sections after the first never
affect the result, since the description is fully determined by the first
element alone. -/
theorem description_uses_first_section_only (raw : JSON) (o : Offer)
    (h : parse_single_offer raw = some o) :
    (∀ s, sections_chain raw = Except.ok s → pyTruthy s = false → o.description = "") ∧
    (∀ x rest, sections_chain raw = Except.ok (JSON.arr (x :: rest)) →
      ∃ ffs t, x = JSON.obj ffs ∧
        (dictGet ffs "text").getD (JSON.str "") = JSON.str t ∧
        o.description = pyStripString t) := by
  obtain ⟨fs, vfs, s, hraw, hvfs, hchain, -, -, -, -, -, -, -, hempty, hfirst⟩ :=
    parse_single_offer_ok_destruct h
  constructor
  · intro s2 hs2 hfalse
    rw [hchain] at hs2
    injection hs2 with hs2
    subst hs2
    exact hempty hfalse
  · intro x rest hxr
    rw [hchain] at hxr
    injection hxr with hxr
    exact hfirst x rest hxr

def rawDescW : JSON := .obj [("viewSection", .obj [
  ("detailsFormattedAttributesString", .obj [("sections", .arr [
    .obj [("text", .str "  A  ")], .obj [("text", .str "B")]])])])]

def offerDescW : Offer :=
  ⟨.str "", .str "", .str "", .str "", .str "", "A", .str "", false, .null⟩

/-- Witness for C5 at the spec's example record: sections
`[{"text": "  A  "}, {"text": "B"}]` give description `"A"`. -/
theorem description_uses_first_section_only_witness :
    parse_single_offer rawDescW = some offerDescW ∧ offerDescW.description = "A" := by
  have hparse : parse_single_offer rawDescW = some offerDescW := rfl
  refine ⟨hparse, ?_⟩
  obtain ⟨ffs, t, hx, ht, hd⟩ :=
    (description_uses_first_section_only rawDescW offerDescW hparse).2
      (JSON.obj [("text", JSON.str "  A  ")]) [JSON.obj [("text", JSON.str "B")]] rfl
  have hffs : [("text", JSON.str "  A  ")] = ffs := by
    injection hx with h2
  subst hffs
  have hteq : "  A  " = t := by
    simpa [dictGet] using ht
  rw [hd, ← hteq]
  rfl

/-- `_parse_offers` is the list-extraction step followed by the
(exception-free) per-record loop. -/
theorem parse_offers_eq_extract (data : JSON) :
    parse_offers data =
      extract_raw_offers data >>= fun raws => pure (parse_offers_loop raws) := by
  unfold parse_offers extract_raw_offers
  cases h1 : jget data "data" (.obj []) with
  | error e => simp [h1]
  | ok d =>
    simp only [h1, except_bind_ok]
    cases h2 : jget d "userOffersV2" (.obj []) with
    | error e => simp [h2]
    | ok u =>
      simp only [h2, except_bind_ok]
      cases h3 : jget u "offers" (.arr []) with
      | error e => simp [h3]
      | ok ro => simp [h3]

/-- C6: `_parse_offers` extracts the offer list from the fixed path
`data.userOffersV2.offers`, yielding the empty result when any segment of
the path is absent; each extracted record is parsed by the single-offer
contract and kept exactly when the result is non-`None` (so a malformed
record never aborts the batch); and the exceptions of `_parse_offers` are
exactly those of the list-extraction step. -/
theorem parse_offers_batch_contract (data : JSON) :
    (∀ e, extract_raw_offers data = Except.error e → parse_offers data = Except.error e) ∧
    (∀ raws, extract_raw_offers data = Except.ok raws →
      parse_offers data = Except.ok (raws.filterMap parse_single_offer)) ∧
    (∀ fs, data = JSON.obj fs → dictGet fs "data" = none →
      parse_offers data = Except.ok []) ∧
    (∀ fs dfs, data = JSON.obj fs → dictGet fs "data" = some (JSON.obj dfs) →
      dictGet dfs "userOffersV2" = none → parse_offers data = Except.ok []) ∧
    (∀ fs dfs ufs, data = JSON.obj fs → dictGet fs "data" = some (JSON.obj dfs) →
      dictGet dfs "userOffersV2" = some (JSON.obj ufs) → dictGet ufs "offers" = none →
      parse_offers data = Except.ok []) := by
  refine ⟨?_, ?_, ?_, ?_, ?_⟩
  · intro e he
    rw [parse_offers_eq_extract, he]
    rfl
  · intro raws hr
    rw [parse_offers_eq_extract, hr, except_bind_ok, parse_offers_loop_eq_filterMap]
    rfl
  · intro fs hdf hnone
    subst hdf
    have hex : extract_raw_offers (JSON.obj fs) = .ok [] := by
      unfold extract_raw_offers
      simp [jget, hnone, dictGet, pyIter]
    rw [parse_offers_eq_extract, hex]
    rfl
  · intro fs dfs hdf hsome hnone
    subst hdf
    have hex : extract_raw_offers (JSON.obj fs) = .ok [] := by
      unfold extract_raw_offers
      simp [jget, hsome, hnone, dictGet, pyIter]
    rw [parse_offers_eq_extract, hex]
    rfl
  · intro fs dfs ufs hdf hsome husome hnone
    subst hdf
    have hex : extract_raw_offers (JSON.obj fs) = .ok [] := by
      unfold extract_raw_offers
      simp [jget, hsome, husome, hnone, dictGet, pyIter]
    rw [parse_offers_eq_extract, hex]
    rfl

def envelopeW : JSON := .obj [("data", .obj [("userOffersV2", .obj [("offers", .arr [
  .obj [("offerId", .str "o1")], .str "malformed"])])])]

/-- Witness for C6 at a concrete envelope holding one well-formed record
and one malformed (non-mapping) record: the batch yields exactly the
parsed well-formed record. -/
theorem parse_offers_batch_contract_witness :
    extract_raw_offers envelopeW =
      Except.ok [JSON.obj [("offerId", JSON.str "o1")], JSON.str "malformed"] ∧
    parse_offers envelopeW = Except.ok
      [⟨.str "", .str "o1", .str "", .str "", .str "", "", .str "", false, .null⟩] :=
  ⟨rfl, (parse_offers_batch_contract envelopeW).2.1
    [JSON.obj [("offerId", JSON.str "o1")], JSON.str "malformed"] rfl⟩

/-- C9 counterexample: a 200 response whose JSON body contains the errors
array `[]` makes `_graphql_get` raise `IndexError` (from `errors[0]` on an
empty list), not the application-level `RuntimeError` with a message from
the first entry; so "ApplicationError exactly when the body contains an
errors array" fails on the code. -/
theorem graphql_get_empty_errors_cex :
    graphql_get ⟨200, [("errors", JSON.arr [])]⟩ = Except.error PyErr.indexError := rfl

/-- A non-error HTTP status reduces `_graphql_get` to the `errors`-key
branch of its body. -/
theorem graphql_get_char (r : HttpResponse)
    (hs : ¬(400 ≤ r.status ∧ r.status < 600)) :
    graphql_get r =
      match dictGet r.body "errors" with
      | some errors =>
        pyIndexZero errors >>= fun first =>
        jget first "message" (.str "Unknown error") >>= fun msg =>
        .error (.appError msg)
      | none => pure (.obj r.body) := by
  unfold graphql_get raise_for_status
  rw [if_neg hs]
  rfl

/-- C9 (amended): `_graphql_get` raises the transport error exactly on a
4xx/5xx status; below that, with no `errors` key it returns the decoded
body, and it raises the application error exactly when the `errors` key
holds a non-empty array whose first entry is a mapping, carrying
`errors[0].get("message", "Unknown error")`; an errors array that is
empty raises `IndexError` instead. -/
theorem graphql_get_error_contract (r : HttpResponse) :
    ((400 ≤ r.status ∧ r.status < 600) → graphql_get r = .error .httpError) ∧
    (graphql_get r = .error .httpError → 400 ≤ r.status ∧ r.status < 600) ∧
    (¬(400 ≤ r.status ∧ r.status < 600) →
      (dictGet r.body "errors" = none → graphql_get r = .ok (.obj r.body)) ∧
      (∀ ffs rest, dictGet r.body "errors" = some (.arr (.obj ffs :: rest)) →
        graphql_get r =
          .error (.appError ((dictGet ffs "message").getD (.str "Unknown error")))) ∧
      (dictGet r.body "errors" = some (.arr []) →
        graphql_get r = .error .indexError)) ∧
    (∀ m, graphql_get r = .error (.appError m) →
      ∃ ffs rest, dictGet r.body "errors" = some (.arr (.obj ffs :: rest)) ∧
        m = (dictGet ffs "message").getD (.str "Unknown error")) := by
  by_cases hs : 400 ≤ r.status ∧ r.status < 600
  · have hget : graphql_get r = .error .httpError := by
      unfold graphql_get raise_for_status
      rw [if_pos hs]
      rfl
    refine ⟨fun _ => hget, fun _ => hs, fun hns => absurd hs hns, ?_⟩
    intro m hm
    rw [hget] at hm
    simp at hm
  · have hchar := graphql_get_char r hs
    refine ⟨fun h => absurd h hs, ?_, fun _ => ⟨?_, ?_, ?_⟩, ?_⟩
    · intro h2
      rw [hchar] at h2
      exfalso
      cases herr : dictGet r.body "errors" with
      | none => rw [herr] at h2; simp [pure, Except.pure] at h2
      | some errors =>
        rw [herr] at h2
        cases errors with
        | null => simp [pyIndexZero] at h2
        | bool b => simp [pyIndexZero] at h2
        | num n => simp [pyIndexZero] at h2
        | obj gfs => simp [pyIndexZero] at h2
        | str s =>
          cases hsd : s.data with
          | nil => simp [pyIndexZero, hsd] at h2
          | cons c cs => simp [pyIndexZero, hsd, jget] at h2
        | arr xs =>
          cases xs with
          | nil => simp [pyIndexZero] at h2
          | cons x xs2 => cases x <;> simp [pyIndexZero, jget] at h2
    · intro hnone
      rw [hchar, hnone]
      rfl
    · intro ffs rest hsome
      rw [hchar, hsome]
      rfl
    · intro hsome
      rw [hchar, hsome]
      rfl
    · intro m hm
      rw [hchar] at hm
      cases herr : dictGet r.body "errors" with
      | none => rw [herr] at hm; simp [pure, Except.pure] at hm
      | some errors =>
        rw [herr] at hm
        cases errors with
        | null => simp [pyIndexZero] at hm
        | bool b => simp [pyIndexZero] at hm
        | num n => simp [pyIndexZero] at hm
        | obj gfs => simp [pyIndexZero] at hm
        | str s =>
          cases hsd : s.data with
          | nil => simp [pyIndexZero, hsd] at hm
          | cons c cs => simp [pyIndexZero, hsd, jget] at hm
        | arr xs =>
          cases xs with
          | nil => simp [pyIndexZero] at hm
          | cons x xs2 =>
            cases x with
            | obj ffs =>
              simp only [pyIndexZero, except_bind_ok, jget, Except.error.injEq,
                PyErr.appError.injEq] at hm
              exact ⟨ffs, xs2, rfl, hm.symm⟩
            | null => simp [pyIndexZero, jget] at hm
            | bool b => simp [pyIndexZero, jget] at hm
            | num n => simp [pyIndexZero, jget] at hm
            | str s => simp [pyIndexZero, jget] at hm
            | arr ys => simp [pyIndexZero, jget] at hm

/-- Witness for C9 (amended) at a 200 response carrying one error entry
with message `"bad"`. -/
theorem graphql_get_error_contract_witness :
    ¬(400 ≤ 200 ∧ 200 < 600) ∧
    graphql_get ⟨200, [("errors", JSON.arr [.obj [("message", JSON.str "bad")]])]⟩ =
      Except.error (PyErr.appError (JSON.str "bad")) :=
  ⟨by decide,
   ((graphql_get_error_contract
      ⟨200, [("errors", JSON.arr [.obj [("message", JSON.str "bad")]])]⟩).2.2.1
      (by decide)).2.1 [("message", JSON.str "bad")] [] rfl⟩

/-- C8: on an offer already marked clipped, `clip_coupon` returns success
immediately with zero network calls; nothing is mutated (the embedding of
`clip_coupon` produces no updated offer or session at all, and the empty
call trace shows the transport is never touched). -/
theorem clip_already_clipped_short_circuit (offer : Offer) (env : NetEnv)
    (h : offer.is_clipped = true) :
    clip_coupon offer env = (Except.ok true, []) := by
  simp [clip_coupon, h]

def offerClippedW : Offer :=
  ⟨.str "i", .str "oid", .str "c", .str "k", .str "n", "", .str "", true, .null⟩

def envIdleW : NetEnv := ⟨.error .httpError, .error .httpError⟩

/-- Witness for C8 at a concrete clipped offer (the environment would fail
every call, confirming none is made). -/
theorem clip_already_clipped_short_circuit_witness :
    offerClippedW.is_clipped = true ∧
    clip_coupon offerClippedW envIdleW = (Except.ok true, []) :=
  ⟨rfl, clip_already_clipped_short_circuit offerClippedW envIdleW rfl⟩

/-- C1: when an unclipped offer's detail fetch and item resolution succeed
and the `ClipCoupon` response's `data.clipCouponV2` value is truthy,
`clip_coupon` returns `True`, and the `clip_all_coupons` loop body
thereupon sets the offer's `is_clipped` to true (the source performs the
assignment in `clip_all_coupons`, on `clip_coupon`'s `True` return). -/
theorem clip_success_sets_clipped (offer : Offer) (env : NetEnv)
    (od item_id v : JSON)
    (h0 : offer.is_clipped = false)
    (h1 : get_available_offer env = some od)
    (h2 : resolve_item_id od = .ok (some item_id))
    (h3 : clip_mutation_result env = .ok v)
    (h4 : pyTruthy v = true) :
    (clip_coupon offer env).1 = .ok true ∧
    clip_offer_step offer env = .ok ({ offer with is_clipped := true }, true) := by
  have hcc : clip_coupon offer env = (.ok true,
      [IssuedCall.getAvailableOffer offer.offer_id, IssuedCall.clipCoupon item_id]) := by
    simp [clip_coupon, h0, h1, h2, h3, h4]
  constructor
  · rw [hcc]
  · simp [clip_offer_step, h0, hcc]

def offerC1W : Offer :=
  ⟨.str "i", .str "oid", .str "c", .str "k", .str "n", "", .str "", false, .null⟩

def envC1W : NetEnv :=
  ⟨.ok (.obj [("data", .obj [("getAvailableOffer",
      .obj [("items", .arr [.obj [("legacyId", .str "999")]])])])]),
   .ok (.obj [("data", .obj [("clipCouponV2", .obj [("success", .bool true)])])])⟩

/-- Witness for C1 at the spec's end-to-end scenario: detail fetch returns
`items: [{"legacyId": "999"}]` and the clip mutation returns
`clipCouponV2: {"success": true}`. -/
theorem clip_success_sets_clipped_witness :
    offerC1W.is_clipped = false ∧
    (clip_coupon offerC1W envC1W).1 = .ok true ∧
    clip_offer_step offerC1W envC1W = .ok ({ offerC1W with is_clipped := true }, true) := by
  have h := clip_success_sets_clipped offerC1W envC1W
    (.obj [("items", .arr [.obj [("legacyId", .str "999")]])])
    (.str "999") (.obj [("success", .bool true)]) rfl rfl rfl rfl rfl
  exact ⟨rfl, h.1, h.2⟩

/-- C7: for an unclipped offer whose detail result is a mapping carrying
an empty `items` list, `clip_coupon` falls back to the fixed default item
identifier `"000000000001"` and issues the `ClipCoupon` mutation with that
item id (whatever the mutation's outcome). -/
theorem clip_empty_items_uses_default_item_id (offer : Offer) (env : NetEnv)
    (od_fields : List (String × JSON))
    (h0 : offer.is_clipped = false)
    (h1 : get_available_offer env = some (JSON.obj od_fields))
    (h2 : dictGet od_fields "items" = some (JSON.arr [])) :
    (clip_coupon offer env).2 =
      [IssuedCall.getAvailableOffer offer.offer_id,
       IssuedCall.clipCoupon (JSON.str "000000000001")] := by
  have hres : resolve_item_id (JSON.obj od_fields) = .ok (some (.str "000000000001")) := by
    simp [resolve_item_id, jget, h2, pyTruthy, pure, Except.pure]
  cases hm : clip_mutation_result env with
  | error e => simp [clip_coupon, h0, h1, hres, hm]
  | ok v => simp [clip_coupon, h0, h1, hres, hm]

def offerC7W : Offer :=
  ⟨.str "i", .str "oid", .str "c", .str "k", .str "n", "", .str "", false, .null⟩

def envC7W : NetEnv :=
  ⟨.ok (.obj [("data", .obj [("getAvailableOffer", .obj [("items", .arr [])])])]),
   .ok (.obj [("data", .obj [("clipCouponV2", JSON.null)])])⟩

/-- Witness for C7 at a concrete detail result with `items: []`. -/
theorem clip_empty_items_uses_default_item_id_witness :
    (clip_coupon offerC7W envC7W).2 =
      [IssuedCall.getAvailableOffer (JSON.str "oid"),
       IssuedCall.clipCoupon (JSON.str "000000000001")] :=
  clip_empty_items_uses_default_item_id offerC7W envC7W
    [("items", JSON.arr [])] rfl rfl rfl

/-- C10: for an unclipped offer whose detail result carries a non-empty
`items` list whose first item is a mapping in which `legacyId` is falsy or
absent, `clip_coupon` returns `False` without issuing the `ClipCoupon`
mutation (the call trace holds only the detail fetch). -/
theorem clip_falsy_legacy_id_fails_without_mutation (offer : Offer) (env : NetEnv)
    (od_fields first_fields : List (String × JSON)) (rest : List JSON)
    (h0 : offer.is_clipped = false)
    (h1 : get_available_offer env = some (JSON.obj od_fields))
    (h2 : dictGet od_fields "items" = some (JSON.arr (JSON.obj first_fields :: rest)))
    (h3 : pyTruthy ((dictGet first_fields "legacyId").getD JSON.null) = false) :
    clip_coupon offer env = (.ok false, [IssuedCall.getAvailableOffer offer.offer_id]) := by
  have hres : resolve_item_id (JSON.obj od_fields) = .ok none := by
    have htru : pyTruthy (JSON.arr (JSON.obj first_fields :: rest)) = true := by
      simp [pyTruthy]
    simp [resolve_item_id, jget, h2, htru, pyIndexZero, h3, pure, Except.pure]
  simp [clip_coupon, h0, h1, hres]

def offerC10W : Offer :=
  ⟨.str "i", .str "oid", .str "c", .str "k", .str "n", "", .str "", false, .null⟩

def envC10W : NetEnv :=
  ⟨.ok (.obj [("data", .obj [("getAvailableOffer",
      .obj [("items", .arr [.obj [("legacyId", .str "")]])])])]),
   .ok JSON.null⟩

/-- Witness for C10 at a concrete first item with `legacyId = ""`. -/
theorem clip_falsy_legacy_id_fails_without_mutation_witness :
    clip_coupon offerC10W envC10W =
      (.ok false, [IssuedCall.getAvailableOffer (JSON.str "oid")]) :=
  clip_falsy_legacy_id_fails_without_mutation offerC10W envC10W
    [("items", JSON.arr [JSON.obj [("legacyId", JSON.str "")]])]
    [("legacyId", JSON.str "")] [] rfl rfl rfl rfl

def offerCexC2 : Offer :=
  ⟨.str "i", .str "oid", .str "c", .str "k", .str "n", "", .str "", false, .null⟩

def envCexC2 : NetEnv :=
  ⟨.ok (.obj [("data", .obj [("getAvailableOffer", .str "x")])]), .ok JSON.null⟩

/-- C2 counterexample: when `GetAvailableOffer` returns the truthy
non-mapping value `"x"`, the un-guarded `offer_data.get("items", [])`
raises `AttributeError`, which escapes `clip_coupon` instead of becoming a
`False` return — refuting "clip_coupon never raises" for every response
shape. -/
theorem clip_coupon_attribute_error_cex :
    (clip_coupon offerCexC2 envCexC2).1 = Except.error PyErr.attributeError := rfl

/-- Detail results on which the item-resolution block of `clip_coupon`
cannot raise: the result is a mapping whose `items` value (defaulted to
`[]`) is an empty list, a list whose first element is a mapping, or a
falsy value. -/
def detail_shape_ok (od : JSON) : Bool :=
  match od with
  | .obj fs =>
    match (dictGet fs "items").getD (.arr []) with
    | .arr [] => true
    | .arr (.obj _ :: _) => true
    | .arr (_ :: _) => false
    | v => !pyTruthy v
  | _ => false

/-- On a well-shaped detail result, the (un-guarded) item-resolution
block of `clip_coupon` returns normally. -/
theorem resolve_item_id_ok_of_good_shape {od : JSON}
    (hok : detail_shape_ok od = true) :
    ∃ r, resolve_item_id od = .ok r := by
  cases od with
  | obj fs =>
    cases hit : (dictGet fs "items").getD (.arr []) with
    | arr xs =>
      cases xs with
      | nil =>
        exact ⟨some (.str "000000000001"),
          by simp [resolve_item_id, jget, hit, pyTruthy, pure, Except.pure]⟩
      | cons x rest =>
        cases x with
        | obj ffs =>
          cases hl : pyTruthy ((dictGet ffs "legacyId").getD JSON.null) with
          | true =>
            refine ⟨some ((dictGet ffs "legacyId").getD JSON.null), ?_⟩
            have htru : pyTruthy (JSON.arr (JSON.obj ffs :: rest)) = true := by
              simp [pyTruthy]
            simp [resolve_item_id, jget, hit, htru, pyIndexZero, hl, pure, Except.pure]
          | false =>
            refine ⟨none, ?_⟩
            have htru : pyTruthy (JSON.arr (JSON.obj ffs :: rest)) = true := by
              simp [pyTruthy]
            simp [resolve_item_id, jget, hit, htru, pyIndexZero, hl, pure, Except.pure]
        | null => simp [detail_shape_ok, hit] at hok
        | bool b => simp [detail_shape_ok, hit] at hok
        | num n => simp [detail_shape_ok, hit] at hok
        | str s => simp [detail_shape_ok, hit] at hok
        | arr ys => simp [detail_shape_ok, hit] at hok
    | null =>
      exact ⟨some (.str "000000000001"),
        by simp [resolve_item_id, jget, hit, pyTruthy, pure, Except.pure]⟩
    | bool b =>
      have hfb : pyTruthy (JSON.bool b) = false := by
        simp [detail_shape_ok, hit] at hok
        simpa [pyTruthy] using hok
      exact ⟨some (.str "000000000001"),
        by simp [resolve_item_id, jget, hit, hfb, pure, Except.pure]⟩
    | num n =>
      have hfb : pyTruthy (JSON.num n) = false := by
        simp [detail_shape_ok, hit] at hok
        simpa [pyTruthy] using hok
      exact ⟨some (.str "000000000001"),
        by simp [resolve_item_id, jget, hit, hfb, pure, Except.pure]⟩
    | str s =>
      have hfb : pyTruthy (JSON.str s) = false := by
        simp [detail_shape_ok, hit] at hok
        simpa [pyTruthy] using hok
      exact ⟨some (.str "000000000001"),
        by simp [resolve_item_id, jget, hit, hfb, pure, Except.pure]⟩
    | obj gfs =>
      have hfb : pyTruthy (JSON.obj gfs) = false := by
        simp [detail_shape_ok, hit] at hok
        simpa [pyTruthy] using hok
      exact ⟨some (.str "000000000001"),
        by simp [resolve_item_id, jget, hit, hfb, pure, Except.pure]⟩
  | null => simp [detail_shape_ok] at hok
  | bool b => simp [detail_shape_ok] at hok
  | num n => simp [detail_shape_ok] at hok
  | str s => simp [detail_shape_ok] at hok
  | arr xs => simp [detail_shape_ok] at hok

/-- On every ill-shaped detail result — non-mapping, truthy non-list
`items`, or a non-mapping first item — the item-resolution block raises:
`AttributeError` from `.get` on a non-mapping, `TypeError`/`KeyError`/
`IndexError` from `items[0]` on a non-list. -/
theorem resolve_item_id_error_of_bad_shape {od : JSON}
    (h : detail_shape_ok od = false) :
    ∃ e, resolve_item_id od = .error e := by
  cases od with
  | obj fs =>
    cases hit : (dictGet fs "items").getD (.arr []) with
    | arr xs =>
      cases xs with
      | nil => simp [detail_shape_ok, hit] at h
      | cons x rest =>
        cases x with
        | obj ffs => simp [detail_shape_ok, hit] at h
        | null =>
          exact ⟨.attributeError,
            by simp [resolve_item_id, jget, hit, pyTruthy, pyIndexZero]⟩
        | bool b =>
          exact ⟨.attributeError,
            by simp [resolve_item_id, jget, hit, pyTruthy, pyIndexZero]⟩
        | num n =>
          exact ⟨.attributeError,
            by simp [resolve_item_id, jget, hit, pyTruthy, pyIndexZero]⟩
        | str s =>
          exact ⟨.attributeError,
            by simp [resolve_item_id, jget, hit, pyTruthy, pyIndexZero]⟩
        | arr ys =>
          exact ⟨.attributeError,
            by simp [resolve_item_id, jget, hit, pyTruthy, pyIndexZero]⟩
    | null => simp [detail_shape_ok, hit, pyTruthy] at h
    | bool b =>
      simp [detail_shape_ok, hit] at h
      exact ⟨.typeError, by simp [resolve_item_id, jget, hit, h, pyIndexZero]⟩
    | num n =>
      simp [detail_shape_ok, hit] at h
      exact ⟨.typeError, by simp [resolve_item_id, jget, hit, h, pyIndexZero]⟩
    | str s =>
      simp [detail_shape_ok, hit] at h
      cases hsd : s.data with
      | nil =>
        exact ⟨.indexError, by simp [resolve_item_id, jget, hit, h, pyIndexZero, hsd]⟩
      | cons c cs =>
        exact ⟨.attributeError,
          by simp [resolve_item_id, jget, hit, h, pyIndexZero, hsd]⟩
    | obj gfs =>
      simp [detail_shape_ok, hit] at h
      exact ⟨.keyError, by simp [resolve_item_id, jget, hit, h, pyIndexZero]⟩
  | null => exact ⟨.attributeError, by simp [resolve_item_id, jget]⟩
  | bool b => exact ⟨.attributeError, by simp [resolve_item_id, jget]⟩
  | num n => exact ⟨.attributeError, by simp [resolve_item_id, jget]⟩
  | str s => exact ⟨.attributeError, by simp [resolve_item_id, jget]⟩
  | arr xs => exact ⟨.attributeError, by simp [resolve_item_id, jget]⟩

/-- C2 (amended): for an unclipped offer with a detail result, no
exception escapes `clip_coupon` — every failure becomes a `False` return —
if and only if that result is well-shaped: a mapping whose `items` value
is an empty list, a list whose first element is a mapping, or falsy.  The
iff's forward direction shows every excluded shape (truthy non-mapping
detail result, truthy non-list `items`, non-mapping first item) genuinely
raises, via the `AttributeError`/`TypeError`/`KeyError`/`IndexError` of
the un-guarded item-resolution block between the two guarded network
calls; the counterexample exhibits one such escape concretely. -/
theorem clip_coupon_no_escape_on_wellshaped_details (offer : Offer) (env : NetEnv) :
    exceptIsOk (clip_coupon offer env).1 = true ↔
      (offer.is_clipped = false →
        ∀ od, get_available_offer env = some od → detail_shape_ok od = true) := by
  constructor
  · intro hok hclip od hav
    cases hshape : detail_shape_ok od with
    | true => rfl
    | false =>
      exfalso
      obtain ⟨e, he⟩ := resolve_item_id_error_of_bad_shape hshape
      have hval : (clip_coupon offer env).1 = .error e := by
        simp [clip_coupon, hclip, hav, he]
      rw [hval] at hok
      simp [exceptIsOk] at hok
  · intro h
    cases hco : offer.is_clipped with
    | true => simp [clip_coupon, hco, exceptIsOk]
    | false =>
      cases hav : get_available_offer env with
      | none => simp [clip_coupon, hco, hav, exceptIsOk]
      | some od =>
        obtain ⟨r, hr⟩ := resolve_item_id_ok_of_good_shape (h hco od hav)
        cases r with
        | none => simp [clip_coupon, hco, hav, hr, exceptIsOk]
        | some item_id =>
          cases hm : clip_mutation_result env with
          | error e => simp [clip_coupon, hco, hav, hr, hm, exceptIsOk]
          | ok v => simp [clip_coupon, hco, hav, hr, hm, exceptIsOk]

def offerC2W : Offer :=
  ⟨.str "i", .str "oid", .str "c", .str "k", .str "n", "", .str "", false, .null⟩

def envC2W : NetEnv :=
  ⟨.ok (.obj [("data", .obj [("getAvailableOffer", .obj [("items", .arr [])])])]),
   .error .httpError⟩

/-- Witness for C2 (amended) at a concrete well-shaped detail result with
`items: []` and a failing clip call: no exception escapes. -/
theorem clip_coupon_no_escape_on_wellshaped_details_witness :
    detail_shape_ok (.obj [("items", JSON.arr [])]) = true ∧
    exceptIsOk (clip_coupon offerC2W envC2W).1 = true := by
  refine ⟨rfl, ?_⟩
  refine (clip_coupon_no_escape_on_wellshaped_details offerC2W envC2W).mpr ?_
  intro _ od hod
  have hod2 : some (JSON.obj [("items", JSON.arr [])]) = some od := hod
  injection hod2 with hod2
  subst hod2
  rfl

end SproutsCoupons
